import Mathlib

/-! Shallow embedding of the FxA content-server authentication brokers: the pairing
authority broker (src/app/scripts/models/auth_brokers/pairing/authority.js) and the
base authentication broker (models/auth_brokers/base, whose behaviour is documented
by the spec and exercised by its test suite under src/unnamed/part_000). -/

namespace Fxa

/-- Minimal model of the JavaScript values that flow through the broker messages:
undefined, null, booleans, integers, strings, and objects as association lists. -/
inductive JSVal where
  | undefV : JSVal
  | nullV : JSVal
  | bool : Bool → JSVal
  | num : Int → JSVal
  | str : String → JSVal
  | obj : List (String × JSVal) → JSVal

/-- JavaScript truthiness: undefined, null, false, 0 and the empty string are falsy;
every object is truthy. -/
def truthy : JSVal → Bool
  | .undefV => false
  | .nullV => false
  | .bool b => b
  | .num n => n != 0
  | .str s => s != ""
  | .obj _ => true

/-- Property lookup in an association list of fields; a missing key reads as undefined. -/
def lookupField : List (String × JSVal) → String → JSVal
  | [], _ => .undefV
  | (k, v) :: rest, key => if k == key then v else lookupField rest key

/-- Property read on a JavaScript value: `v.key`; reads on non-objects give undefined. -/
def getField (v : JSVal) (key : String) : JSVal :=
  match v with
  | .obj fields => lookupField fields key
  | _ => .undefV

/-- Whether an object value carries the given property key at all. -/
def hasField (v : JSVal) (key : String) : Bool :=
  match v with
  | .obj fields => fields.any (fun kv => kv.1 == key)
  | _ => false

/-- Property assignment on an object field list: `data.key = x` overwrites the first
occurrence or appends. -/
def setFieldList : List (String × JSVal) → String → JSVal → List (String × JSVal)
  | [], key, x => [(key, x)]
  | (k, v) :: rest, key, x =>
      if k == key then (k, x) :: rest else (k, v) :: setFieldList rest key x

/-- Property deletion: remove every field with the given key. -/
def removeField (fields : List (String × JSVal)) (key : String) : List (String × JSVal) :=
  fields.filter (fun kv => kv.1 != key)

/-- Observable effects performed by the pairing authority broker
(authority.js): direct state machine calls, notifier triggers, and channel requests. -/
inductive Action where
  | smHeartbeatError : JSVal → Action
  | smTransitionForward : JSVal → Action
  | notifierTrigger : String → Action
  | channelRequest : String → Action

/-- Modelled from the spec: the notification channel COMMANDS table lives in the channel
module (lib/channels), which is not under src/. The spec names the commands
request-supplicant-metadata, heartbeat, authorize, decline, complete; their concrete
strings are irrelevant to the claims and are modelled as distinct tags. -/
def PAIR_HEARTBEAT : String := "pair:heartbeat"

/-- Modelled from the spec: the request-supplicant-metadata command tag, see PAIR_HEARTBEAT. -/
def PAIR_REQUEST_SUPPLICANT_METADATA : String := "pair:request:supplicant:metadata"

/-- Embedding of the response handler inside heartbeat() (authority.js lines 44 to 52):
a truthy err field routes to stateMachine.heartbeatError, otherwise a truthy
suppAuthorized field triggers the pair:supp:authorize notification, otherwise nothing. -/
def heartbeatActions (response : JSVal) : List Action :=
  if truthy (getField response "err") then
    [Action.smHeartbeatError (getField response "err")]
  else if truthy (getField response "suppAuthorized") then
    [Action.notifierTrigger "pair:supp:authorize"]
  else
    []

/-- Outcome of one heartbeat tick: the actions performed and, when the request promise
rejected, the rejection value, which heartbeat() never handles (the then call in
authority.js lines 43 to 52 has no rejection handler and no catch). -/
structure HeartbeatOutcome where
  actions : List Action
  unhandledRejection : Option JSVal

/-- Embedding of heartbeat() (authority.js lines 42 to 53): the tick issues the heartbeat
channel request; if the request promise resolves the response handler runs; if it
rejects, no handler runs and the rejection is left unhandled. -/
def heartbeatTick (result : Except JSVal JSVal) : HeartbeatOutcome :=
  match result with
  | .ok response =>
      { actions := Action.channelRequest PAIR_HEARTBEAT :: heartbeatActions response
        unhandledRejection := none }
  | .error e =>
      { actions := [Action.channelRequest PAIR_HEARTBEAT]
        unhandledRejection := some e }

/-- Whether an action is a heartbeatError input to the state machine. -/
def isHeartbeatErrorInput : Action → Bool
  | .smHeartbeatError _ => true
  | _ => false

/-- Whether an action is a pair:supp:authorize notifier trigger. -/
def isSuppAuthorizeTrigger : Action → Bool
  | .notifierTrigger ev => ev == "pair:supp:authorize"
  | _ => false

/-- Number of pair:supp:authorize notifications among a list of actions. -/
def countSuppAuthorizeTriggers (acts : List Action) : Nat :=
  acts.countP isSuppAuthorizeTrigger

/-- Number of channel requests among a list of actions. -/
def countRequests (acts : List Action) : Nat :=
  acts.countP (fun a => match a with | .channelRequest _ => true | _ => false)

/-- Typed inputs of the authority state machine named by the spec. -/
inductive SMEvent where
  | heartbeatError : JSVal → SMEvent
  | supplicantAuthorized : SMEvent

/-- Modelled from the spec: the authority state machine (authority-state-machine.js, not
under src/) is constructed with the notifier, and per the spec a suppAuthorized flag
routes to a supplicant authorized event while emitting the local pair:supp:authorize
notification; the model therefore maps a pair:supp:authorize notifier trigger to the
supplicant-authorized event and a direct stateMachine.heartbeatError call to the
heartbeat-error event. -/
def smEventsOfActions : List Action → List SMEvent
  | [] => []
  | a :: rest =>
      (match a with
       | .smHeartbeatError e => [SMEvent.heartbeatError e]
       | .notifierTrigger ev =>
           if ev == "pair:supp:authorize" then [SMEvent.supplicantAuthorized] else []
       | _ => []) ++ smEventsOfActions rest

/-- Timer environment of the authority broker: fresh interval handles are allocated by
setInterval, the active list holds the running intervals, and stored is the
_heartbeatInterval attribute of the broker. -/
structure TimerState where
  nextHandle : Nat
  active : List Nat
  stored : Option Nat

/-- clearInterval cancels exactly the interval named by the handle; clearInterval on
undefined is a no-op. -/
def clearInterval (active : List Nat) (handle : Option Nat) : List Nat :=
  active.filter (fun h => if handle = some h then false else true)

/-- Embedding of startHeartbeat() (authority.js lines 34 to 36): setInterval allocates a
fresh interval and the handle overwrites _heartbeatInterval. -/
def startHeartbeat (s : TimerState) : TimerState :=
  { nextHandle := s.nextHandle + 1
    active := s.active ++ [s.nextHandle]
    stored := some s.nextHandle }

/-- Embedding of stopHeartbeat() (authority.js lines 38 to 40): clearInterval on the
stored handle; the attribute itself is left in place. -/
def stopHeartbeat (s : TimerState) : TimerState :=
  { s with active := clearInterval s.active s.stored }

/-- Operations a caller can perform on the heartbeat machinery: start, stop, or let a
tick run with a given channel result. -/
inductive BrokerOp where
  | start : BrokerOp
  | stop : BrokerOp
  | tick : Except JSVal JSVal → BrokerOp

/-- Whether an operation is the explicit stopHeartbeat call. -/
def isStop : BrokerOp → Bool
  | .stop => true
  | _ => false

/-- Timer effect of one operation; heartbeat() (authority.js lines 42 to 53) contains no
setInterval or clearInterval call, so a tick leaves the timer state unchanged. -/
def applyOp (s : TimerState) : BrokerOp → TimerState
  | .start => startHeartbeat s
  | .stop => stopHeartbeat s
  | .tick _ => s

/-- Fold of applyOp over a sequence of operations. -/
def applyOps (s : TimerState) : List BrokerOp → TimerState
  | [] => s
  | op :: rest => applyOps (applyOp s op) rest

/-- An interval handle that the broker interface can never cancel again: it is running,
older than every handle yet to be allocated, and not the stored handle. -/
def cannotCancel (h : Nat) (s : TimerState) : Prop :=
  h ∈ s.active ∧ h < s.nextHandle ∧ s.stored ≠ some h

/-- Attribute state of the pairing authority broker used by getSupplicantMetadata:
the remoteMetaData cache and the confirmationCode attribute. -/
structure AuthorityBroker where
  remoteMetaData : JSVal
  confirmationCode : JSVal

/-- Modelled from the spec: setRemoteMetaData is imported from ./remote-metadata, which is
not under src/. The spec says the metadata response is stored as remoteMetaData and
cached on the broker, and that the metadata fetch transitions the state machine forward
with the fetched metadata as payload; the only step of getSupplicantMetadata whose source
is missing is this call, so the model places both the store and the forward transition
here. -/
def setRemoteMetaData (b : AuthorityBroker) (response : JSVal) :
    AuthorityBroker × List Action :=
  ({ b with remoteMetaData := response }, [Action.smTransitionForward response])

/-- Embedding of getSupplicantMetadata() (authority.js lines 59 to 72): a truthy cached
remoteMetaData is returned at once with no channel traffic; otherwise the metadata
request is issued, the response goes through setRemoteMetaData, the confirmation_code
field is stored as confirmationCode, and the stored remoteMetaData is returned. The
response argument is the value the channel request would resolve with. -/
def getSupplicantMetadata (b : AuthorityBroker) (response : JSVal) :
    AuthorityBroker × JSVal × List Action :=
  if truthy b.remoteMetaData then
    (b, b.remoteMetaData, [])
  else
    let sm := setRemoteMetaData b response
    let b2 := { sm.1 with confirmationCode := getField response "confirmation_code" }
    (b2, b2.remoteMetaData, Action.channelRequest PAIR_REQUEST_SUPPLICANT_METADATA :: sm.2)

/-- Result of calling a JavaScript function that is expected to produce a promise:
either it returns a promise that later resolves or rejects, or it throws synchronously. -/
inductive CallResult where
  | returns : Except JSVal JSVal → CallResult
  | throwsSync : JSVal → CallResult

/-- Semantics of Promise.resolve().then(fn): a synchronous throw inside fn becomes a
rejection of the resulting promise. -/
def settle : CallResult → Except JSVal JSVal
  | .returns outcome => outcome
  | .throwsSync e => .error e

/-- Embedding of the channel_id stamping in request/send (authority.js lines 91 and 101):
data.channel_id is assigned the relier channelId before delegation. -/
def stampChannelId (channelId : JSVal) (data : List (String × JSVal)) :
    List (String × JSVal) :=
  setFieldList data "channel_id" channelId

/-- Embedding of request(message, data) (authority.js lines 89 to 97): the body runs
inside Promise.resolve().then, stamps channel_id, and delegates to the channel request
method; the channel is a parameter standing for this._notificationChannel.request. -/
def brokerRequest (channelId : JSVal)
    (channel : String → List (String × JSVal) → CallResult)
    (message : String) (data : List (String × JSVal)) : CallResult :=
  CallResult.returns (settle (channel message (stampChannelId channelId data)))

/-- Embedding of send(message, data) (authority.js lines 99 to 106): identical to request
except that it delegates to the channel send method. -/
def brokerSend (channelId : JSVal)
    (channel : String → List (String × JSVal) → CallResult)
    (message : String) (data : List (String × JSVal)) : CallResult :=
  CallResult.returns (settle (channel message (stampChannelId channelId data)))

/-- Classified channel error, identified by its auth-errors name. -/
structure AuthError where
  errorName : String

/-- Classification test for the invalid-web-channel error, per the spec error taxonomy
and the INVALID_WEB_CHANNEL cases of the base broker test suite. -/
def isInvalidWebChannel (e : AuthError) : Bool :=
  e.errorName == "INVALID_WEB_CHANNEL"

/-- Capability read: the raw stored value, or undefined when absent. Modelled from the
spec (base.js is not under src/): a direct registry lookup. -/
def getCapability (caps : List (String × JSVal)) (key : String) : JSVal :=
  lookupField caps key

/-- Capability probe: true iff the stored value is truthy. Modelled from the spec. -/
def hasCapability (caps : List (String × JSVal)) (key : String) : Bool :=
  truthy (getCapability caps key)

/-- Capability write. Modelled from the spec. -/
def setCapability (caps : List (String × JSVal)) (key : String) (v : JSVal) :
    List (String × JSVal) :=
  setFieldList caps key v

/-- Capability removal. Modelled from the spec. -/
def unsetCapability (caps : List (String × JSVal)) (key : String) :
    List (String × JSVal) :=
  removeField caps key

/-- Attribute state of the base authentication broker relevant to the status fetch. -/
structure BaseBroker where
  capabilities : List (String × JSVal)
  browserSignedInAccount : JSVal

/-- Modelled from the spec: _fetchFxaStatus (models/auth_brokers/base, not under src/).
Per the spec and the base broker tests (src/unnamed/part_000 lines 88 to 125): on a
resolved status response the signedInUser field is stored as browserSignedInAccount; on
a rejection classified invalid-web-channel the fxaStatus capability is set to false and
the call resolves; any other rejection is propagated unchanged. -/
def fetchFxaStatus (b : BaseBroker) (result : Except AuthError JSVal) :
    Except AuthError BaseBroker :=
  match result with
  | .ok response =>
      .ok { b with browserSignedInAccount := getField response "signedInUser" }
  | .error e =>
      if isInvalidWebChannel e then
        .ok { b with capabilities := setCapability b.capabilities "fxaStatus" (JSVal.bool false) }
      else
        .error e

/-- Base broker lifecycle hooks exercised by the test suite under src/unnamed/part_000. -/
inductive Hook where
  | beforeSignIn
  | afterSignIn
  | afterForceAuth
  | afterChangePassword
  | afterCompleteResetPassword
  | afterCompleteSignUp
  | afterDeleteAccount
  | afterResetPasswordConfirmationPoll
  | afterSignInConfirmationPoll
  | afterSignUpConfirmationPoll
  | beforeSignUpConfirmationPoll
  | afterLoaded
deriving DecidableEq

/-- Behavior descriptor: the halt flag and the navigation endpoint; a missing field is
none, matching an undefined JavaScript property. -/
structure Behavior where
  halt : Option Bool
  endpoint : Option String

/-- Modelled from the spec: the default Behavior table of the base broker (base.js not
under src/). Per the spec and the tests (src/unnamed/part_000 lines 185 to 268), every
hook without an explicit override resolves to the continue behavior with no halt field,
except the two confirmation-poll hooks, which navigate to signin_confirmed and
signup_confirmed. -/
def defaultBehavior : Hook → Behavior
  | .afterSignInConfirmationPoll => { halt := some true, endpoint := some "signin_confirmed" }
  | .afterSignUpConfirmationPoll => { halt := some true, endpoint := some "signup_confirmed" }
  | _ => { halt := none, endpoint := none }

/-- State of the afterLoaded wiring: whether the view-shown handler is still subscribed,
and how many times afterLoaded has been invoked. -/
structure LoadedSubscription where
  subscribed : Bool
  invocations : Nat

/-- Modelled from the spec and the base broker test (src/unnamed/part_000 lines 128 to
142): the base broker (base.js, not under src/) subscribes its afterLoaded to the
notifier view-shown event once at construction; the test triggers view-shown twice and
asserts that afterLoaded was called exactly once, so the subscription is consumed by
the first delivery. -/
def initialLoadedSubscription : LoadedSubscription :=
  { subscribed := true, invocations := 0 }

/-- One view-shown notification: if the once-only handler is still subscribed it fires,
incrementing the invocation count and unsubscribing; otherwise nothing happens. -/
def triggerViewShown (s : LoadedSubscription) : LoadedSubscription :=
  if s.subscribed then { subscribed := false, invocations := s.invocations + 1 } else s

/-- n successive view-shown notifications. -/
def triggerViewShownN : Nat → LoadedSubscription → LoadedSubscription
  | 0, s => s
  | n + 1, s => triggerViewShownN n (triggerViewShown s)

/-! Helper lemmas shared by the claim theorems. -/

theorem lookupField_setFieldList :
    ∀ (fields : List (String × JSVal)) (key : String) (x : JSVal),
      lookupField (setFieldList fields key x) key = x := by
  intro fields key x
  induction fields with
  | nil => simp [setFieldList, lookupField]
  | cons kv rest ih =>
    obtain ⟨k, v⟩ := kv
    by_cases h : k == key
    · simp [setFieldList, lookupField, h]
    · simp [setFieldList, lookupField, h, ih]

theorem lookupField_removeField :
    ∀ (fields : List (String × JSVal)) (key : String),
      lookupField (removeField fields key) key = JSVal.undefV := by
  intro fields key
  induction fields with
  | nil => rfl
  | cons kv rest ih =>
    obtain ⟨k, v⟩ := kv
    by_cases h : k = key
    · simpa [removeField, List.filter_cons, h] using ih
    · simpa [removeField, List.filter_cons, lookupField, h] using ih

theorem mem_active_applyOp_of_not_stop :
    ∀ (s : TimerState) (op : BrokerOp), isStop op = false →
      ∀ h, h ∈ s.active → h ∈ (applyOp s op).active := by
  intro s op hop h hmem
  cases op with
  | start =>
    simp only [applyOp, startHeartbeat, List.mem_append]
    exact Or.inl hmem
  | stop => simp [isStop] at hop
  | tick r => simpa [applyOp] using hmem

theorem mem_active_applyOps_of_no_stop :
    ∀ (ops : List BrokerOp) (s : TimerState),
      ops.all (fun op => ! isStop op) = true →
      ∀ h, h ∈ s.active → h ∈ (applyOps s ops).active := by
  intro ops
  induction ops with
  | nil =>
    intro s _ h hmem
    simpa [applyOps] using hmem
  | cons op rest ih =>
    intro s hall h hmem
    rw [List.all_cons, Bool.and_eq_true] at hall
    exact ih (applyOp s op) hall.2 h
      (mem_active_applyOp_of_not_stop s op (by simpa using hall.1) h hmem)

theorem cannotCancel_applyOp :
    ∀ (s : TimerState) (op : BrokerOp) (h : Nat),
      cannotCancel h s → cannotCancel h (applyOp s op) := by
  intro s op h hc
  obtain ⟨hmem, hlt, hst⟩ := hc
  cases op with
  | start =>
    refine ⟨?_, ?_, ?_⟩
    · simp only [applyOp, startHeartbeat, List.mem_append]
      exact Or.inl hmem
    · simp only [applyOp, startHeartbeat]
      omega
    · simp only [applyOp, startHeartbeat, ne_eq, Option.some.injEq]
      omega
  | stop =>
    refine ⟨?_, hlt, hst⟩
    simp only [applyOp, stopHeartbeat, clearInterval, List.mem_filter]
    refine ⟨hmem, ?_⟩
    simp [hst]
  | tick r => exact ⟨hmem, hlt, hst⟩

theorem cannotCancel_applyOps :
    ∀ (ops : List BrokerOp) (s : TimerState) (h : Nat),
      cannotCancel h s → cannotCancel h (applyOps s ops) := by
  intro ops
  induction ops with
  | nil =>
    intro s h hc
    simpa [applyOps] using hc
  | cons op rest ih =>
    intro s h hc
    exact ih (applyOp s op) h (cannotCancel_applyOp s op h hc)

theorem triggerViewShownN_unsubscribed :
    ∀ (n : Nat) (k : Nat),
      triggerViewShownN n { subscribed := false, invocations := k }
        = { subscribed := false, invocations := k } := by
  intro n
  induction n with
  | zero => intro k; rfl
  | succ m ih =>
    intro k
    simpa [triggerViewShownN, triggerViewShown] using ih k

/-! Claim theorems. -/

/-- C1 counterexample: the claim as stated fails on the code. A response that carries an
err field whose value is false raises no state-machine event at all, although the claim
says any response carrying an error field raises a heartbeat-error event; and a response
with a truthy err field together with suppAuthorized true raises only the heartbeat-error
event and never emits the pair:supp:authorize notification, although the claim says any
response with a truthy suppAuthorized flag emits exactly one such notification. -/
theorem C1_counterexample :
    hasField (JSVal.obj [( "err", JSVal.bool false)]) "err" = true
    ∧ heartbeatActions (JSVal.obj [( "err", JSVal.bool false)]) = []
    ∧ heartbeatActions
        (JSVal.obj [( "err", JSVal.str "boom"), ( "suppAuthorized", JSVal.bool true)])
        = [Action.smHeartbeatError (JSVal.str "boom")] :=
  ⟨by decide, rfl, rfl⟩

/-- C1 (amended): for every heartbeat response, a truthy err field raises exactly the
heartbeat-error state-machine event carrying that error; otherwise a truthy
suppAuthorized flag raises the supplicant-authorized event and emits exactly one
pair:supp:authorize notification; a response in which neither field is truthy causes no
state-machine event and no notification. -/
theorem C1_amended_heartbeat_classification :
    ∀ r : JSVal,
      (truthy (getField r "err") = true →
          heartbeatActions r = [Action.smHeartbeatError (getField r "err")]
          ∧ smEventsOfActions (heartbeatActions r)
              = [SMEvent.heartbeatError (getField r "err")]
          ∧ countSuppAuthorizeTriggers (heartbeatActions r) = 0)
      ∧ (truthy (getField r "err") = false → truthy (getField r "suppAuthorized") = true →
          heartbeatActions r = [Action.notifierTrigger "pair:supp:authorize"]
          ∧ smEventsOfActions (heartbeatActions r) = [SMEvent.supplicantAuthorized]
          ∧ countSuppAuthorizeTriggers (heartbeatActions r) = 1)
      ∧ (truthy (getField r "err") = false → truthy (getField r "suppAuthorized") = false →
          heartbeatActions r = []) := by
  intro r
  refine ⟨?_, ?_, ?_⟩
  · intro he
    have hact : heartbeatActions r = [Action.smHeartbeatError (getField r "err")] := by
      simp [heartbeatActions, he]
    exact ⟨hact, by rw [hact]; rfl, by rw [hact]; rfl⟩
  · intro he hs
    have hact : heartbeatActions r = [Action.notifierTrigger "pair:supp:authorize"] := by
      simp [heartbeatActions, he, hs]
    exact ⟨hact, by rw [hact]; rfl, by rw [hact]; rfl⟩
  · intro he hs
    simp [heartbeatActions, he, hs]

/-- C1 witness: the three branches of the amended classification evaluated at concrete
responses. -/
theorem C1_amended_heartbeat_classification_witness :
    (heartbeatActions (JSVal.obj [( "err", JSVal.str "lost")])
        = [Action.smHeartbeatError (JSVal.str "lost")]
      ∧ smEventsOfActions (heartbeatActions (JSVal.obj [( "err", JSVal.str "lost")]))
          = [SMEvent.heartbeatError (JSVal.str "lost")]
      ∧ countSuppAuthorizeTriggers (heartbeatActions (JSVal.obj [( "err", JSVal.str "lost")])) = 0)
    ∧ (heartbeatActions (JSVal.obj [( "suppAuthorized", JSVal.bool true)])
        = [Action.notifierTrigger "pair:supp:authorize"]
      ∧ smEventsOfActions (heartbeatActions (JSVal.obj [( "suppAuthorized", JSVal.bool true)]))
          = [SMEvent.supplicantAuthorized]
      ∧ countSuppAuthorizeTriggers
          (heartbeatActions (JSVal.obj [( "suppAuthorized", JSVal.bool true)])) = 1)
    ∧ heartbeatActions (JSVal.obj []) = [] :=
  ⟨(C1_amended_heartbeat_classification (JSVal.obj [( "err", JSVal.str "lost")])).1 (by decide),
   (C1_amended_heartbeat_classification
      (JSVal.obj [( "suppAuthorized", JSVal.bool true)])).2.1 (by decide) (by decide),
   (C1_amended_heartbeat_classification (JSVal.obj [])).2.2 (by decide) (by decide)⟩

/-- C9: in heartbeat(), the error branch takes precedence. For every response with a
truthy err field, the only action is the heartbeatError state-machine input, and no
pair:supp:authorize notification is emitted even if the response also carries
suppAuthorized true. -/
theorem C9_err_branch_precedence :
    ∀ r : JSVal, truthy (getField r "err") = true →
      heartbeatActions r = [Action.smHeartbeatError (getField r "err")]
      ∧ countSuppAuthorizeTriggers (heartbeatActions r) = 0 := by
  intro r he
  have hact : heartbeatActions r = [Action.smHeartbeatError (getField r "err")] := by
    simp [heartbeatActions, he]
  exact ⟨hact, by rw [hact]; rfl⟩

/-- C9 witness: evaluated at a response that carries both a truthy err and
suppAuthorized true. -/
theorem C9_err_branch_precedence_witness :
    heartbeatActions
        (JSVal.obj [( "err", JSVal.str "boom"), ( "suppAuthorized", JSVal.bool true)])
      = [Action.smHeartbeatError (JSVal.str "boom")]
    ∧ countSuppAuthorizeTriggers (heartbeatActions
        (JSVal.obj [( "err", JSVal.str "boom"), ( "suppAuthorized", JSVal.bool true)])) = 0 :=
  C9_err_branch_precedence
    (JSVal.obj [( "err", JSVal.str "boom"), ( "suppAuthorized", JSVal.bool true)]) (by decide)

/-- C2 counterexample: the claim as stated fails on the code. A heartbeat channel request
that rejects is not handed to the state machine: the tick performs no heartbeatError
input at all and the rejection is left as an unhandled promise rejection, because the
then call in heartbeat() has no rejection handler and no catch. -/
theorem C2_counterexample :
    ((heartbeatTick (Except.error (JSVal.str "network failure"))).actions.countP
        isHeartbeatErrorInput = 0)
    ∧ (heartbeatTick (Except.error (JSVal.str "network failure"))).unhandledRejection
        = some (JSVal.str "network failure") :=
  ⟨by decide, rfl⟩

/-- C2 (amended): errors reported in-band by a resolved heartbeat response (a truthy err
field) are handed to the state machine as typed input, not thrown; a rejected heartbeat
request is not caught by heartbeat() and yields an unhandled rejection and no
state-machine input; a tick never changes the timer state; and the heartbeat interval
stays active under any sequence of operations that does not contain an explicit
stopHeartbeat, so no round-trip error cancels the timer. -/
theorem C2_amended_heartbeat_error_handling :
    (∀ r : JSVal, truthy (getField r "err") = true →
        (heartbeatTick (Except.ok r)).actions
          = [Action.channelRequest PAIR_HEARTBEAT, Action.smHeartbeatError (getField r "err")]
        ∧ (heartbeatTick (Except.ok r)).unhandledRejection = none)
    ∧ (∀ e : JSVal, heartbeatTick (Except.error e)
        = { actions := [Action.channelRequest PAIR_HEARTBEAT], unhandledRejection := some e })
    ∧ (∀ (s : TimerState) (result : Except JSVal JSVal),
        applyOp s (BrokerOp.tick result) = s)
    ∧ (∀ (s : TimerState) (ops : List BrokerOp),
        ops.all (fun op => ! isStop op) = true →
        ∀ h, h ∈ s.active → h ∈ (applyOps s ops).active) := by
  refine ⟨?_, fun e => rfl, fun s result => rfl,
    fun s ops hall h hmem => mem_active_applyOps_of_no_stop ops s hall h hmem⟩
  intro r he
  constructor
  · simp [heartbeatTick, heartbeatActions, he]
  · rfl

/-- C2 witness: an in-band error routed to the state machine, and a started interval
surviving a sequence of ticks, one of which carries a rejection. -/
theorem C2_amended_heartbeat_error_handling_witness :
    ((heartbeatTick (Except.ok (JSVal.obj [( "err", JSVal.str "timeout")]))).actions
        = [Action.channelRequest PAIR_HEARTBEAT, Action.smHeartbeatError (JSVal.str "timeout")]
      ∧ (heartbeatTick (Except.ok (JSVal.obj [( "err", JSVal.str "timeout")]))).unhandledRejection
          = none)
    ∧ 0 ∈ (applyOps { nextHandle := 1, active := [0], stored := some 0 }
        [BrokerOp.tick (Except.error (JSVal.str "down")),
         BrokerOp.tick (Except.ok JSVal.undefV)]).active :=
  ⟨C2_amended_heartbeat_error_handling.1 (JSVal.obj [( "err", JSVal.str "timeout")]) (by decide),
   C2_amended_heartbeat_error_handling.2.2.2
     { nextHandle := 1, active := [0], stored := some 0 }
     [BrokerOp.tick (Except.error (JSVal.str "down")), BrokerOp.tick (Except.ok JSVal.undefV)]
     (by decide) 0 (by decide)⟩

/-- C3: getSupplicantMetadata returns the cached remoteMetaData at once when it is
truthy, with no channel traffic; otherwise it issues the metadata channel request,
stores the response as remoteMetaData, stores the confirmation_code field as
confirmationCode, and transitions the state machine forward with the fetched metadata;
consequently two sequential calls issue at most one channel request and resolve to the
same metadata. -/
theorem C3_getSupplicantMetadata_caches :
    (∀ (b : AuthorityBroker) (r : JSVal), truthy b.remoteMetaData = true →
        getSupplicantMetadata b r = (b, b.remoteMetaData, []))
    ∧ (∀ (b : AuthorityBroker) (r : JSVal), truthy b.remoteMetaData = false →
        getSupplicantMetadata b r =
          ({ remoteMetaData := r, confirmationCode := getField r "confirmation_code" }, r,
           [Action.channelRequest PAIR_REQUEST_SUPPLICANT_METADATA,
            Action.smTransitionForward r]))
    ∧ (∀ (b : AuthorityBroker) (r r2 : JSVal), truthy r = true →
        countRequests ((getSupplicantMetadata b r).2.2
            ++ (getSupplicantMetadata (getSupplicantMetadata b r).1 r2).2.2) ≤ 1
        ∧ (getSupplicantMetadata (getSupplicantMetadata b r).1 r2).2.1
            = (getSupplicantMetadata b r).2.1) := by
  refine ⟨?_, ?_, ?_⟩
  · intro b r hb
    simp [getSupplicantMetadata, hb]
  · intro b r hb
    simp [getSupplicantMetadata, setRemoteMetaData, hb]
  · intro b r r2 hr
    by_cases hb : truthy b.remoteMetaData
    · simp [getSupplicantMetadata, hb, countRequests]
    · simp only [Bool.not_eq_true] at hb
      simp [getSupplicantMetadata, setRemoteMetaData, hb, hr, countRequests,
        List.countP_cons, List.countP_nil]

/-- C3 witness: the cache-hit path at a broker already holding metadata, and the two
sequential calls at an empty broker with a concrete metadata response. -/
theorem C3_getSupplicantMetadata_caches_witness :
    getSupplicantMetadata
        { remoteMetaData := JSVal.obj [( "ua", JSVal.str "Firefox")],
          confirmationCode := JSVal.undefV } JSVal.undefV
      = ({ remoteMetaData := JSVal.obj [( "ua", JSVal.str "Firefox")],
           confirmationCode := JSVal.undefV },
         JSVal.obj [( "ua", JSVal.str "Firefox")], [])
    ∧ (countRequests
        ((getSupplicantMetadata { remoteMetaData := JSVal.undefV, confirmationCode := JSVal.undefV }
            (JSVal.obj [( "confirmation_code", JSVal.str "1234")])).2.2
          ++ (getSupplicantMetadata
                (getSupplicantMetadata
                  { remoteMetaData := JSVal.undefV, confirmationCode := JSVal.undefV }
                  (JSVal.obj [( "confirmation_code", JSVal.str "1234")])).1
                (JSVal.obj [( "confirmation_code", JSVal.str "5678")])).2.2) ≤ 1
      ∧ (getSupplicantMetadata
            (getSupplicantMetadata
              { remoteMetaData := JSVal.undefV, confirmationCode := JSVal.undefV }
              (JSVal.obj [( "confirmation_code", JSVal.str "1234")])).1
            (JSVal.obj [( "confirmation_code", JSVal.str "5678")])).2.1
          = (getSupplicantMetadata
              { remoteMetaData := JSVal.undefV, confirmationCode := JSVal.undefV }
              (JSVal.obj [( "confirmation_code", JSVal.str "1234")])).2.1) :=
  ⟨C3_getSupplicantMetadata_caches.1
      { remoteMetaData := JSVal.obj [( "ua", JSVal.str "Firefox")],
        confirmationCode := JSVal.undefV } JSVal.undefV (by decide),
   C3_getSupplicantMetadata_caches.2.2
      { remoteMetaData := JSVal.undefV, confirmationCode := JSVal.undefV }
      (JSVal.obj [( "confirmation_code", JSVal.str "1234")])
      (JSVal.obj [( "confirmation_code", JSVal.str "5678")]) (by decide)⟩

/-- C4: for every command and every data object, request and send both deliver to the
channel a data object whose channel_id equals the relier channelId; both always return a
promise, never throwing synchronously; and a synchronous throw inside the channel call
surfaces as a rejection of the returned promise. -/
theorem C4_channel_id_stamped_and_no_sync_throw :
    (∀ (channelId : JSVal) (data : List (String × JSVal)),
        lookupField (stampChannelId channelId data) "channel_id" = channelId)
    ∧ (∀ (channelId : JSVal) (channel : String → List (String × JSVal) → CallResult)
         (message : String) (data : List (String × JSVal)),
        (∃ outcome, brokerRequest channelId channel message data = CallResult.returns outcome)
        ∧ (∃ outcome, brokerSend channelId channel message data = CallResult.returns outcome))
    ∧ (∀ (channelId e : JSVal) (message : String) (data : List (String × JSVal)),
        brokerRequest channelId (fun _ _ => CallResult.throwsSync e) message data
          = CallResult.returns (Except.error e)
        ∧ brokerSend channelId (fun _ _ => CallResult.throwsSync e) message data
          = CallResult.returns (Except.error e)) :=
  ⟨fun channelId data => lookupField_setFieldList data "channel_id" channelId,
   fun _ _ _ _ => ⟨⟨_, rfl⟩, ⟨_, rfl⟩⟩,
   fun _ _ _ _ => ⟨rfl, rfl⟩⟩

/-- C10: a second startHeartbeat without an intervening stopHeartbeat overwrites the
stored _heartbeatInterval handle; the following stopHeartbeat cancels only the second
interval; the first interval is still active, and it stays active under every further
sequence of broker operations, so the broker interface can never cancel it. -/
theorem C10_duplicate_startHeartbeat_orphans_timer :
    ∀ s : TimerState,
      (startHeartbeat (startHeartbeat s)).stored = some (s.nextHandle + 1)
      ∧ (startHeartbeat (startHeartbeat s)).stored ≠ some s.nextHandle
      ∧ s.nextHandle ∈ (startHeartbeat (startHeartbeat s)).active
      ∧ s.nextHandle + 1 ∉ (stopHeartbeat (startHeartbeat (startHeartbeat s))).active
      ∧ ∀ ops : List BrokerOp,
          s.nextHandle ∈
            (applyOps (stopHeartbeat (startHeartbeat (startHeartbeat s))) ops).active := by
  intro s
  have hne : (some (s.nextHandle + 1) : Option Nat) ≠ some s.nextHandle := by
    simp
  refine ⟨rfl, hne, ?_, ?_, ?_⟩
  · simp [startHeartbeat, List.mem_append]
  · simp [stopHeartbeat, startHeartbeat, clearInterval, List.mem_filter]
  · intro ops
    have hc : cannotCancel s.nextHandle (stopHeartbeat (startHeartbeat (startHeartbeat s))) := by
      refine ⟨?_, ?_, ?_⟩
      · simp only [stopHeartbeat, startHeartbeat, clearInterval, List.mem_filter,
          List.mem_append]
        refine ⟨Or.inl (Or.inr ?_), ?_⟩
        · simp
        · simp
      · simp only [stopHeartbeat, startHeartbeat]
        omega
      · simp [stopHeartbeat, startHeartbeat]
    exact (cannotCancel_applyOps ops _ s.nextHandle hc).1

/-- C5 counterexample: the claim as stated fails on the code. The base broker test
(src/unnamed/part_000 lines 134 to 141) triggers view-shown twice and asserts that
afterLoaded was called exactly once, so two notifications produce one invocation, not
two as the claim requires. -/
theorem C5_counterexample :
    (triggerViewShownN 2 initialLoadedSubscription).invocations = 1
    ∧ (triggerViewShownN 2 initialLoadedSubscription).invocations ≠ 2 :=
  ⟨rfl, by decide⟩

/-- C5 (amended): the afterLoaded subscription is set up once per broker instance and is
once-only: the first view-shown notification invokes afterLoaded exactly once, and
further notifications cause no further invocations, so n notifications produce
min n 1 invocations in total. -/
theorem C5_amended_afterLoaded_once :
    ∀ n : Nat, (triggerViewShownN n initialLoadedSubscription).invocations = min n 1 := by
  intro n
  cases n with
  | zero => rfl
  | succ m =>
    have h : triggerViewShownN (m + 1) initialLoadedSubscription
        = { subscribed := false, invocations := 1 } := by
      simpa [triggerViewShownN, triggerViewShown, initialLoadedSubscription]
        using triggerViewShownN_unsubscribed m 1
    rw [h]
    show 1 = min (m + 1) 1
    omega

/-- C6: when the status fetch fails with an error classified invalid-web-channel, the
fxaStatus capability becomes false and the call still resolves; when it fails with any
other classification, the call rejects with that same error unchanged. -/
theorem C6_fetchFxaStatus_error_classification :
    ∀ (b : BaseBroker) (e : AuthError),
      (isInvalidWebChannel e = true →
          fetchFxaStatus b (Except.error e)
            = Except.ok { b with
                capabilities := setCapability b.capabilities "fxaStatus" (JSVal.bool false) }
          ∧ hasCapability (setCapability b.capabilities "fxaStatus" (JSVal.bool false))
              "fxaStatus" = false
          ∧ getCapability (setCapability b.capabilities "fxaStatus" (JSVal.bool false))
              "fxaStatus" = JSVal.bool false)
      ∧ (isInvalidWebChannel e = false →
          fetchFxaStatus b (Except.error e) = Except.error e) := by
  intro b e
  constructor
  · intro h
    refine ⟨?_, ?_, ?_⟩
    · simp [fetchFxaStatus, h]
    · simp [hasCapability, getCapability, setCapability, lookupField_setFieldList, truthy]
    · simp [getCapability, setCapability, lookupField_setFieldList]
  · intro h
    simp [fetchFxaStatus, h]

/-- C6 witness: evaluated at an INVALID_WEB_CHANNEL rejection and at an
UNEXPECTED_ERROR rejection of a fresh broker. -/
theorem C6_fetchFxaStatus_error_classification_witness :
    (fetchFxaStatus { capabilities := [], browserSignedInAccount := JSVal.undefV }
        (Except.error { errorName := "INVALID_WEB_CHANNEL" })
      = Except.ok { capabilities := [( "fxaStatus", JSVal.bool false)],
                    browserSignedInAccount := JSVal.undefV }
      ∧ hasCapability (setCapability [] "fxaStatus" (JSVal.bool false)) "fxaStatus" = false
      ∧ getCapability (setCapability [] "fxaStatus" (JSVal.bool false)) "fxaStatus"
          = JSVal.bool false)
    ∧ fetchFxaStatus { capabilities := [], browserSignedInAccount := JSVal.undefV }
        (Except.error { errorName := "UNEXPECTED_ERROR" })
      = Except.error { errorName := "UNEXPECTED_ERROR" } :=
  ⟨(C6_fetchFxaStatus_error_classification
      { capabilities := [], browserSignedInAccount := JSVal.undefV }
      { errorName := "INVALID_WEB_CHANNEL" }).1 (by decide),
   (C6_fetchFxaStatus_error_classification
      { capabilities := [], browserSignedInAccount := JSVal.undefV }
      { errorName := "UNEXPECTED_ERROR" }).2 (by decide)⟩

/-- C7: every base-broker lifecycle hook with no explicit override resolves to a
Behavior whose halt field is undefined, except afterSignInConfirmationPoll and
afterSignUpConfirmationPoll, which resolve to halt true with endpoint signin_confirmed
and signup_confirmed respectively. -/
theorem C7_default_behaviors :
    defaultBehavior Hook.afterSignInConfirmationPoll
        = { halt := some true, endpoint := some "signin_confirmed" }
    ∧ defaultBehavior Hook.afterSignUpConfirmationPoll
        = { halt := some true, endpoint := some "signup_confirmed" }
    ∧ ∀ h : Hook, h ≠ Hook.afterSignInConfirmationPoll →
        h ≠ Hook.afterSignUpConfirmationPoll → (defaultBehavior h).halt = none := by
  refine ⟨rfl, rfl, ?_⟩
  intro h h1 h2
  cases h <;> first
    | rfl
    | exact absurd rfl h1
    | exact absurd rfl h2

/-- C7 witness: a hook without an override, evaluated concretely. -/
theorem C7_default_behaviors_witness :
    (defaultBehavior Hook.beforeSignIn).halt = none :=
  C7_default_behaviors.2.2 Hook.beforeSignIn (by decide) (by decide)

/-- C8: capability registry round-trip. After setCapability with a truthy value,
hasCapability is true and getCapability returns that value; after setCapability with a
falsy value (false, undefined, null, 0), hasCapability is false; after unsetCapability,
hasCapability is false and getCapability is undefined. -/
theorem C8_capability_round_trip :
    ∀ (caps : List (String × JSVal)) (key : String) (v : JSVal),
      (truthy v = true →
          hasCapability (setCapability caps key v) key = true
          ∧ getCapability (setCapability caps key v) key = v)
      ∧ (truthy v = false → hasCapability (setCapability caps key v) key = false)
      ∧ hasCapability (unsetCapability caps key) key = false
      ∧ getCapability (unsetCapability caps key) key = JSVal.undefV := by
  intro caps key v
  refine ⟨?_, ?_, ?_, ?_⟩
  · intro hv
    constructor
    · simp [hasCapability, getCapability, setCapability, lookupField_setFieldList, hv]
    · simp [getCapability, setCapability, lookupField_setFieldList]
  · intro hv
    simp [hasCapability, getCapability, setCapability, lookupField_setFieldList, hv]
  · simp [hasCapability, getCapability, unsetCapability, lookupField_removeField, truthy]
  · simp [getCapability, unsetCapability, lookupField_removeField]

/-- C8 witness: a truthy object value round-trips; the four falsy values false,
undefined, null and 0 all make hasCapability false; unsetCapability after setCapability
clears the entry. -/
theorem C8_capability_round_trip_witness :
    (hasCapability (setCapability [] "some-capability" (JSVal.obj [( "key", JSVal.str "value")]))
        "some-capability" = true
      ∧ getCapability (setCapability [] "some-capability"
          (JSVal.obj [( "key", JSVal.str "value")])) "some-capability"
          = JSVal.obj [( "key", JSVal.str "value")])
    ∧ hasCapability (setCapability [] "some-capability" (JSVal.bool false))
        "some-capability" = false
    ∧ hasCapability (setCapability [] "some-capability" JSVal.undefV)
        "some-capability" = false
    ∧ hasCapability (setCapability [] "some-capability" JSVal.nullV)
        "some-capability" = false
    ∧ hasCapability (setCapability [] "some-capability" (JSVal.num 0))
        "some-capability" = false
    ∧ hasCapability
        (unsetCapability (setCapability [] "other-capability" (JSVal.bool true))
          "other-capability") "other-capability" = false
    ∧ getCapability
        (unsetCapability (setCapability [] "other-capability" (JSVal.bool true))
          "other-capability") "other-capability" = JSVal.undefV :=
  ⟨(C8_capability_round_trip [] "some-capability"
      (JSVal.obj [( "key", JSVal.str "value")])).1 (by decide),
   (C8_capability_round_trip [] "some-capability" (JSVal.bool false)).2.1 (by decide),
   (C8_capability_round_trip [] "some-capability" JSVal.undefV).2.1 (by decide),
   (C8_capability_round_trip [] "some-capability" JSVal.nullV).2.1 (by decide),
   (C8_capability_round_trip [] "some-capability" (JSVal.num 0)).2.1 (by decide),
   (C8_capability_round_trip (setCapability [] "other-capability" (JSVal.bool true))
      "other-capability" JSVal.undefV).2.2.1,
   (C8_capability_round_trip (setCapability [] "other-capability" (JSVal.bool true))
      "other-capability" JSVal.undefV).2.2.2⟩

/-- C4 witness: the stamped channel_id and the rejected promise for a synchronously
throwing channel, evaluated at concrete inputs. -/
theorem C4_channel_id_stamped_and_no_sync_throw_witness :
    lookupField (stampChannelId (JSVal.str "abc123") [( "k", JSVal.num 1)]) "channel_id"
        = JSVal.str "abc123"
    ∧ brokerRequest (JSVal.str "abc123")
        (fun _ _ => CallResult.throwsSync (JSVal.str "boom")) "pair:heartbeat" []
        = CallResult.returns (Except.error (JSVal.str "boom"))
    ∧ brokerSend (JSVal.str "abc123")
        (fun _ _ => CallResult.throwsSync (JSVal.str "boom")) "pair:complete" []
        = CallResult.returns (Except.error (JSVal.str "boom")) :=
  ⟨C4_channel_id_stamped_and_no_sync_throw.1 (JSVal.str "abc123") [( "k", JSVal.num 1)],
   (C4_channel_id_stamped_and_no_sync_throw.2.2 (JSVal.str "abc123") (JSVal.str "boom")
      "pair:heartbeat" []).1,
   (C4_channel_id_stamped_and_no_sync_throw.2.2 (JSVal.str "abc123") (JSVal.str "boom")
      "pair:complete" []).2⟩

/-- C5 witness: three view-shown notifications produce exactly one afterLoaded
invocation. -/
theorem C5_amended_afterLoaded_once_witness :
    (triggerViewShownN 3 initialLoadedSubscription).invocations = min 3 1 :=
  C5_amended_afterLoaded_once 3

/-- C10 witness: starting twice from a fresh timer state, stopping, then issuing further
start and stop operations leaves the first interval running. -/
theorem C10_duplicate_startHeartbeat_orphans_timer_witness :
    (startHeartbeat (startHeartbeat { nextHandle := 0, active := [], stored := none })).stored
        = some 1
    ∧ 0 ∈ (applyOps
        (stopHeartbeat (startHeartbeat (startHeartbeat
          { nextHandle := 0, active := [], stored := none })))
        [BrokerOp.start, BrokerOp.stop,
         BrokerOp.tick (Except.error (JSVal.str "late"))]).active :=
  ⟨(C10_duplicate_startHeartbeat_orphans_timer
      { nextHandle := 0, active := [], stored := none }).1,
   (C10_duplicate_startHeartbeat_orphans_timer
      { nextHandle := 0, active := [], stored := none }).2.2.2.2
     [BrokerOp.start, BrokerOp.stop, BrokerOp.tick (Except.error (JSVal.str "late"))]⟩

end Fxa
